import Mathlib

/-!
Verification development for the opencode process supervisor / session client
and the rentcast MCP tools of this repository.

The Python source is shallowly embedded: every HTTP exchange, subprocess
signal, sleep, alert and log line is represented explicitly.  The outcome of
each external call (HTTP response, subprocess state) is an *input* to the
embedded function, and the side effects it performs are returned as an
explicit trace of `Effect` values.  Exceptions are modelled with `Except`
when they can escape to the caller, and are folded into the ordinary result
when the source swallows them.
-/

/-- Severity of a log line emitted by the code. -/
inductive LogLevel where
  | info
  | warning
  | error
deriving Repr, DecidableEq

/-- One observable side effect of the embedded code: an HTTP request that was
sent, an external alert, a log line, a sleep, a config-file write, or a signal
sent to the supervised subprocess. -/
inductive Effect where
  | request (endpoint : String)
  | alert (tags : List String)
  | log (level : LogLevel)
  | sleep (seconds : Int)
  | writeConfig
  | terminateProc
  | killProc
deriving Repr, DecidableEq

/-- Python truthiness of an optional string: `None` and the empty string are
falsy, every other string is truthy. -/
def truthyStr (s : Option String) : Bool :=
  match s with
  | none => false
  | some t => t ≠ ""

/-- One content part of an agent-server response body, as consumed by
`call_opencode_api_query`: the part's optional `type` field and optional
`text` field (`item.get` returns `None` for a missing key). -/
structure ContentPart where
  type : Option String
  text : Option String
deriving Repr, DecidableEq

/-- The observed HTTP response to the session-message post: its status code
and the list of content parts found under the body's `parts` key
(`response_json.get` yields the empty list when the key is absent). -/
structure QueryResponse where
  status : Nat
  parts : List ContentPart
deriving Repr, DecidableEq

/-- The loop body guard of `call_opencode_api_query`, line 69 of
`opencode_sdk.py`: the part's `type` equals the string `text` and its `text`
value is truthy. -/
def keepsText (item : ContentPart) : Bool :=
  item.type == some ("text") && truthyStr item.text

/-- The scan over response parts in `call_opencode_api_query` (lines 68-70):
`response_text` starts as the empty string, and every part whose type is
`text` with truthy text overwrites it, so the last such part wins. -/
def scanParts (parts : List ContentPart) : String :=
  parts.foldl
    (fun response_text item =>
      if keepsText item then item.text.getD ("") else response_text)
    ("")

/-- Python's `str.strip()`: surrounding whitespace removed from both ends
(implemented over the character list so that it evaluates inside proofs). -/
def pyStrip (s : String) : String :=
  ⟨((s.data.dropWhile Char.isWhitespace).reverse.dropWhile
      Char.isWhitespace).reverse⟩

/-- Embedding of `call_opencode_api_query` (`opencode_sdk.py` lines 32-93)
from the post onward.  On 200 the parts are scanned for the last truthy text
part; if none is found an alert and a warning log are emitted.  On non-200 an
alert and an error log are emitted and the accumulated text stays empty.  In
every case the function returns `response_text.strip()`. -/
def call_opencode_api_query (session_id : String) (resp : QueryResponse) :
    String × List Effect :=
  let reqEff : Effect := Effect.request ("/session/" ++ session_id ++ "/message")
  if resp.status = 200 then
    let response_text := scanParts resp.parts
    if response_text = "" then
      (pyStrip response_text,
        [reqEff, Effect.alert ["opencode", "query", "warning"],
          Effect.log LogLevel.warning])
    else
      (pyStrip response_text, [reqEff])
  else
    (pyStrip (""),
      [reqEff, Effect.alert ["opencode", "query", "error"],
        Effect.log LogLevel.error])

/-- Drops characters up to and including the first occurrence of `closeTag`;
if the tag never occurs the whole remainder is dropped (the segment runs to
the end).  Helper for `removeSegments`. -/
def dropThroughClose (closeTag : List Char) : List Char → List Char
  | [] => []
  | c :: rest =>
      if closeTag.isPrefixOf (c :: rest) then
        List.drop closeTag.length (c :: rest)
      else
        dropThroughClose closeTag rest

/-- Removes every tag-delimited segment: on encountering `openTag`, skip
through the matching `closeTag` and continue.  The fuel argument (the input
length suffices, the tags being non-empty) keeps the recursion structural. -/
def removeSegments : Nat → List Char → List Char → List Char → List Char
  | 0, _, _, cs => cs
  | Nat.succ fuel, openTag, closeTag, cs =>
      match cs with
      | [] => []
      | c :: rest =>
          if openTag.isPrefixOf (c :: rest) then
            removeSegments fuel openTag closeTag
              (dropThroughClose closeTag (List.drop openTag.length (c :: rest)))
          else
            c :: removeSegments fuel openTag closeTag rest

/-- Removes every segment delimited by the angle-bracketed tag pair for
`name`.  Helper for `strip_markers`. -/
def stripMarker (s : String) (name : String) : String :=
  let openTag := '<' :: (name.data ++ ['>'])
  let closeTag := '<' :: '/' :: (name.data ++ ['>'])
  ⟨removeSegments s.data.length openTag closeTag s.data⟩

/-- Modelled from the spec: the helper `strip_markers` of
`app.task_executor.utils` is not part of the provided sources.  The spec says
the reply has "a fixed set of inline marker-delimited side-channel segments
(e.g. a think segment) stripped before being handed to the caller"; this model
removes, for each configured marker name, every tag-delimited segment of that
name (the boolean in each configuration pair is not interpreted by the
model). -/
def strip_markers (s : String) (markers : List (String × Bool)) : String :=
  markers.foldl (fun acc m => stripMarker acc m.fst) s

/-- Embedding of `call_opencode_api_compact` (`opencode_sdk.py` lines 95-124)
from the post onward.  `resp = none` models a transport exception raised by
the post, which the surrounding try swallows after an error log; `some s`
models a received response with status `s`.  The function never raises: it
returns `status == 200`. -/
def call_opencode_api_compact (session_id : String) (resp : Option Nat) :
    Bool × List Effect :=
  let reqEff : Effect := Effect.request ("/session/" ++ session_id ++ "/summarize")
  match resp with
  | none => (false, [reqEff, Effect.log LogLevel.error])
  | some status =>
      if status ≠ 200 then
        (false, [reqEff, Effect.alert ["opencode", "compact", "error"],
          Effect.log LogLevel.info])
      else
        (true, [reqEff, Effect.log LogLevel.info])

/-- Embedding of `call_opencode_api_create_session` (`opencode_sdk.py` lines
126-153) from the post onward.  `resp = none` models a transport exception
(swallowed, returning `None`); `some (s, idField)` models a response with
status `s` whose JSON body holds `idField` under the `id` key (or lacks the
key, for `none`). -/
def call_opencode_api_create_session (title : String)
    (resp : Option (Nat × Option String)) : Option String × List Effect :=
  let reqEff : Effect := Effect.request ("/session")
  match resp with
  | none => (none, [reqEff])
  | some (status, idField) =>
      if status ≠ 200 then
        (none, [reqEff, Effect.alert ["opencode", "create-session", "error"]])
      else
        (idField, [reqEff])

/-- The supervisor's state, mirroring the fields of the Python class
`OpenCodeSDKClient`: the working directory and the optionally stored process
handle (identified by its pid) and port. -/
structure OpenCodeSDKClient where
  working_dir : String
  process : Option Int
  port : Option Nat
deriving Repr, DecidableEq

/-- Embedding of `OpenCodeSDKClient.compact` (lines 246-259): asserts a live
process before any network call, then delegates to
`call_opencode_api_compact`. -/
def OpenCodeSDKClient.compact (self : OpenCodeSDKClient) (session_id : String)
    (resp : Option Nat) : Except String Bool × List Effect :=
  match self.process with
  | none => (Except.error ("Not connected to OpenCode"), [])
  | some _ =>
      let r := call_opencode_api_compact session_id resp
      (Except.ok r.fst, r.snd)

/-- Embedding of `OpenCodeSDKClient.create_session` (lines 282-292): asserts a
live process, delegates to `call_opencode_api_create_session`, then asserts
the returned session id is truthy. -/
def OpenCodeSDKClient.create_session (self : OpenCodeSDKClient) (title : String)
    (resp : Option (Nat × Option String)) : Except String String × List Effect :=
  match self.process with
  | none => (Except.error ("Not connected to OpenCode"), [])
  | some _ =>
      let r := call_opencode_api_create_session title resp
      match r.fst with
      | some sid =>
          if sid = "" then
            (Except.error ("Failed to create session"), r.snd)
          else
            (Except.ok sid, r.snd)
      | none => (Except.error ("Failed to create session"), r.snd)

/-- Embedding of `OpenCodeSDKClient.query` (lines 262-280): asserts a live
process; if no session id is supplied first creates one (`createResp` is the
observed response of that creation); then delegates to
`call_opencode_api_query` and strips the configured `think` marker from the
result before a final trim. -/
def OpenCodeSDKClient.query (self : OpenCodeSDKClient)
    (session_id : Option String) (createResp : Option (Nat × Option String))
    (resp : QueryResponse) : Except String String × List Effect :=
  match self.process with
  | none => (Except.error ("Not connected to OpenCode"), [])
  | some _ =>
      match session_id with
      | some sid =>
          let r := call_opencode_api_query sid resp
          (Except.ok (pyStrip (strip_markers r.fst [(("think"), false)])), r.snd)
      | none =>
          let c := self.create_session ("Session t") createResp
          match c.fst with
          | Except.error e => (Except.error e, c.snd)
          | Except.ok sid =>
              let r := call_opencode_api_query sid resp
              (Except.ok (pyStrip (strip_markers r.fst [(("think"), false)])),
                c.snd ++ r.snd)

/-- What the environment presents to one iteration of the readiness-probe
loop: the supervised process's `returncode` at that instant (`some c` once it
has exited) and the outcome of the health GET (`none` for a transport
exception, `some s` for a response with status `s`).  The GET is only
attempted when the returncode check does not raise first. -/
structure PollAttempt where
  returncode : Option Int
  getStatus : Option Nat
deriving Repr, DecidableEq

/-- Embedding of `wait_until_port_is_ready_to_connect` (`opencode_sdk.py`
lines 165-179).  The while loop is bounded by the overall timeout; the list
holds one entry per iteration the timeout budget allows.  Each iteration: if
the process has exited, a RuntimeError carrying the exit code is raised, but
it is caught by the same iteration's blanket `except Exception`, logged, and
the loop continues; otherwise the health GET is attempted, returning `True`
on status 200 and swallowing every other outcome.  When the budget is
exhausted the function falls off the loop and returns `None` (modelled as
`none`). -/
def wait_until_port_is_ready_to_connect : List PollAttempt → Option Bool
  | [] => none
  | a :: rest =>
      match a.returncode with
      | some _ => wait_until_port_is_ready_to_connect rest
      | none =>
          match a.getStatus with
          | some 200 => some true
          | _ => wait_until_port_is_ready_to_connect rest

/-- A property record as consumed by `is_property_active`
(`rentcast/main.py` lines 60-80): only the `yearBuilt` field is consulted,
`property_data.get` defaulting it to `0` when absent. -/
structure PropertyData where
  yearBuilt : Option Int
deriving Repr, DecidableEq

/-- Embedding of `is_property_active` (`rentcast/main.py` lines 60-80): the
first branch returns `True` when `yearBuilt` is truthy (nonzero) and at least
1974, and the fallthrough returns `True` as well. -/
def is_property_active (property_data : PropertyData) : Bool :=
  let year_built : Int := property_data.yearBuilt.getD 0
  if year_built ≠ 0 ∧ year_built ≥ 1974 then
    true
  else
    true

/-- The `active_only` filtering step shared by `search_properties`,
`get_random_properties`, `get_sale_listings` and `get_rental_listings`
(e.g. `rentcast/main.py` lines 250-257, 584-591): when requested, keep the
properties for which `is_property_active` holds. -/
def applyActiveFilter (active_only : Bool) (properties : List PropertyData) :
    List PropertyData :=
  if active_only then
    properties.filter (fun prop => is_property_active prop)
  else
    properties

/-- Outcome of the `process.terminate()` call inside `disconnect`: it either
completes or raises (e.g. the process transport is already closed). -/
inductive TerminateOutcome where
  | ok
  | raised
deriving Repr, DecidableEq

/-- Outcome of `asyncio.wait_for(process.wait(), timeout=5)`: the process
exits within the 5 time units, or the wait raises `asyncio.TimeoutError`. -/
inductive WaitOutcome where
  | exitedInTime
  | timedOut
deriving Repr, DecidableEq

/-- What a run of `disconnect` produces: whether an exception escaped to the
caller, the supervisor state afterward, and the emitted effects. -/
structure DisconnectResult where
  raised : Bool
  finalState : OpenCodeSDKClient
  effects : List Effect
deriving Repr, DecidableEq

/-- Embedding of `OpenCodeSDKClient.disconnect` (`opencode_sdk.py` lines
233-244).  With no stored process it is a no-op.  Otherwise `terminate` is
sent; if it raises, only `asyncio.TimeoutError` would be caught, so the
exception escapes — after the `finally` block has cleared the stored process
and port.  If the wait times out, `kill` is sent and any exception from it is
swallowed (`killRaises` does not change the outcome); the state is cleared in
every path. -/
def OpenCodeSDKClient.disconnect (self : OpenCodeSDKClient)
    (term : TerminateOutcome) (wait : WaitOutcome) (killRaises : Bool) :
    DisconnectResult :=
  match self.process with
  | none => ⟨false, self, []⟩
  | some _ =>
      let cleared : OpenCodeSDKClient := ⟨self.working_dir, none, none⟩
      match term with
      | TerminateOutcome.raised => ⟨true, cleared, [Effect.terminateProc]⟩
      | TerminateOutcome.ok =>
          match wait with
          | WaitOutcome.exitedInTime => ⟨false, cleared, [Effect.terminateProc]⟩
          | WaitOutcome.timedOut =>
              ⟨false, cleared, [Effect.terminateProc, Effect.killProc]⟩

/-- Outcome of the readiness wait inside `connect`: the probe returned
`True`, returned a falsy value (`None`), or raised. -/
inductive ProbeOutcome where
  | ready
  | notReady
  | raised
deriving Repr, DecidableEq

/-- What the readiness phase of `connect` produces: whether `connect` raises
to its caller, the supervisor state afterward, and the emitted effects. -/
structure ConnectResult where
  raised : Bool
  finalState : OpenCodeSDKClient
  effects : List Effect
deriving Repr, DecidableEq

/-- Embedding of the readiness phase of `OpenCodeSDKClient.connect`
(`opencode_sdk.py` lines 206-230), entered right after the spawn succeeded
with `self.process = some pid` and `self.port = some port`.  A falsy probe
result triggers an alert and a `RuntimeError`; that error, or any exception
raised by the probe itself, is caught by the handler which best-effort kills
the process (exceptions from `kill` are swallowed, so `killRaises` does not
change the outcome), clears the stored process and port, and re-raises. -/
def connect_readiness_phase (working_dir : String) (pid : Int) (port : Nat)
    (probe : ProbeOutcome) (killRaises : Bool) : ConnectResult :=
  let live : OpenCodeSDKClient := ⟨working_dir, some pid, some port⟩
  let cleared : OpenCodeSDKClient := ⟨working_dir, none, none⟩
  match probe with
  | ProbeOutcome.ready => ⟨false, live, []⟩
  | ProbeOutcome.notReady =>
      ⟨true, cleared,
        [Effect.alert ["opencode", "start-up", "error"], Effect.killProc]⟩
  | ProbeOutcome.raised =>
      ⟨true, cleared, [Effect.killProc]⟩

/-- A JSON value, as returned by `response.json()`. -/
inductive Json where
  | null
  | bool (b : Bool)
  | num (n : Int)
  | str (s : String)
  | arr (elems : List Json)
  | obj (fields : List (String × Json))
deriving Repr

/-- Python subscripting `j[key]`: succeeds only on a dict that holds the key,
raising `KeyError` (missing key) or `TypeError` (non-dict) otherwise. -/
def pyGetItem (j : Json) (key : String) : Except String Json :=
  match j with
  | Json.obj fields =>
      match fields.lookup key with
      | some v => Except.ok v
      | none => Except.error ("KeyError: " ++ key)
  | _ => Except.error ("TypeError: value is not subscriptable")

/-- Python iteration `for e in j`: a list yields its elements, a dict its
keys, a string its characters; other values raise `TypeError`. -/
def pyIter (j : Json) : Except String (List Json) :=
  match j with
  | Json.arr elems => Except.ok elems
  | Json.obj fields => Except.ok (fields.map (fun kv => Json.str kv.fst))
  | Json.str s => Except.ok (s.toList.map (fun c => Json.str (String.mk [c])))
  | _ => Except.error ("TypeError: value is not iterable")

/-- The observed HTTP response of the model-listing GET in `get_models_fn`:
status code and parsed JSON body. -/
structure ModelsResponse where
  status : Nat
  body : Json

/-- One reshaped model entry, the dict built from `e['id']` and `e['name']`
(the values may be arbitrary JSON). -/
structure ModelDescriptor where
  id : Json
  name : Json

/-- Embedding of `get_models_fn` (`opencode_sdk.py` lines 301-323).  `none`
models a transport exception raised by the GET — the only failure the `try`
covers — which is logged and turned into `[]`.  A non-200 response is logged
and turned into `[]`.  On 200 the body is consumed outside any handler:
`response_json['data']` and each `e['id']`/`e['name']` subscript can raise,
and those exceptions propagate to the caller (`Except.error`). -/
def get_models_fn (resp : Option ModelsResponse) :
    Except String (List ModelDescriptor) :=
  match resp with
  | none => Except.ok []
  | some r =>
      if r.status ≠ 200 then
        Except.ok []
      else
        match pyGetItem r.body ("data") with
        | Except.error e => Except.error e
        | Except.ok data =>
            match pyIter data with
            | Except.error e => Except.error e
            | Except.ok entries =>
                entries.mapM (fun e =>
                  match pyGetItem e ("id") with
                  | Except.error err => Except.error err
                  | Except.ok i =>
                      match pyGetItem e ("name") with
                      | Except.error err => Except.error err
                      | Except.ok n => Except.ok (ModelDescriptor.mk i n))

/-- The environment one cycle of `update_config_task` runs against: the
observed response of the model-listing GET, and whether writing the config
file raises. -/
structure CycleEnv where
  modelsResp : Option ModelsResponse
  writeRaises : Bool

/-- One iteration of the `while True` body of `update_config_task`
(`opencode_sdk.py` lines 541-573): fetch the models, build the config
document and write it; any exception (from the fetch or the write) is caught
and logged. -/
def runCycle (env : CycleEnv) : List Effect :=
  match get_models_fn env.modelsResp with
  | Except.error _ => [Effect.log LogLevel.error]
  | Except.ok _ =>
      if env.writeRaises then
        [Effect.log LogLevel.error]
      else
        [Effect.writeConfig]

/-- Embedding of `update_config_task` (`opencode_sdk.py` lines 537-579).  The
wall-clock-unbounded `while True` loop is run against a finite observation
window `envs`, one entry per cycle the window admits.  After each cycle, a
non-positive `repeat_interval` logs and breaks; a positive one sleeps for the
interval and continues with the next cycle. -/
def update_config_task (repeat_interval : Int) : List CycleEnv → List Effect
  | [] => []
  | env :: rest =>
      if repeat_interval ≤ 0 then
        runCycle env ++ [Effect.log LogLevel.info]
      else
        runCycle env ++ Effect.sleep repeat_interval ::
          update_config_task repeat_interval rest

/-- Recognizes the config-file write effect. -/
def isWrite (e : Effect) : Bool :=
  match e with
  | Effect.writeConfig => true
  | _ => false

/-- Number of config-file writes in an effect trace. -/
def countWrites (effs : List Effect) : Nat :=
  (effs.filter isWrite).length

/-- Recognizes a sleep effect. -/
def isSleep (e : Effect) : Bool :=
  match e with
  | Effect.sleep _ => true
  | _ => false

/-- Number of sleeps in an effect trace. -/
def countSleeps (effs : List Effect) : Nat :=
  (effs.filter isSleep).length

/-- The reply as claim C4 words it: the text of the last part whose type is
`text`, regardless of whether that text is empty or missing. -/
def lastTextTypedPartText (parts : List ContentPart) : Option String :=
  ((parts.filter (fun p => p.type == some ("text"))).getLast?).map
    (fun p => p.text.getD (""))

/-- The reply the code actually computes, stated structurally: the text of
the last `text`-typed part whose text is truthy (non-empty), or the empty
string when there is none. -/
def lastNonemptyTextPartText (parts : List ContentPart) : String :=
  match (parts.filter keepsText).getLast? with
  | some p => p.text.getD ("")
  | none => ("")

/-- C10: every input satisfies `is_property_active`, so the `active_only`
filtering step of the listing tools never removes an item: the filtered list
equals the input list. -/
theorem c10_active_filter_is_identity :
    (∀ p : PropertyData, is_property_active p = true)
      ∧ (∀ l : List PropertyData, applyActiveFilter true l = l) := by
  constructor
  · intro p
    unfold is_property_active
    by_cases h : (p.yearBuilt.getD 0 ≠ 0 ∧ p.yearBuilt.getD 0 ≥ 1974)
    · simp [h]
    · simp [h]
  · intro l
    unfold applyActiveFilter
    simp only [if_pos rfl]
    induction l with
    | nil => rfl
    | cons p rest ih =>
        unfold is_property_active
        simp_all [List.filter_cons, is_property_active]

/-- C1: the readiness probe does not abort when the supervised process has
exited: with the process showing exit code 1 at every attempt (and the health
endpoint even answering 200), the probe still consumes its whole polling
budget and ends in a timeout (`none`), reporting no exit code; by contrast a
live process answering 200 makes it return `some true` at once. -/
theorem c1_probe_ignores_dead_process :
    wait_until_port_is_ready_to_connect
        [⟨some 1, some 200⟩, ⟨some 1, some 200⟩, ⟨some 1, some 200⟩] = none
      ∧ wait_until_port_is_ready_to_connect [⟨none, some 200⟩] = some true := by
  constructor
  · rfl
  · rfl

/-- The parts scan with an arbitrary accumulator computes the text of the
last part kept by `keepsText`, defaulting to the accumulator. -/
theorem foldl_scan_eq_getLast (parts : List ContentPart) (acc : String) :
    parts.foldl
        (fun response_text item =>
          if keepsText item then item.text.getD ("") else response_text)
        acc
      = (match (parts.filter keepsText).getLast? with
          | some p => p.text.getD ("")
          | none => acc) := by
  induction parts generalizing acc with
  | nil => simp
  | cons p rest ih =>
      simp only [List.foldl_cons, List.filter_cons]
      by_cases hp : keepsText p
      · simp only [hp, if_true, if_pos]
        rw [ih]
        cases hrest : rest.filter keepsText with
        | nil => simp
        | cons q qs =>
            have hne : q :: qs ≠ [] := by simp
            have : ((q :: qs).getLast?).isSome := by
              rw [List.getLast?_isSome]
              exact hne
            obtain ⟨r, hr⟩ := Option.isSome_iff_exists.mp this
            simp [List.getLast?_cons_cons, hr]
      · simp only [hp, if_false, if_neg]
        rw [ih]
        simp

/-- `scanParts` keeps the last `text`-typed part with non-empty text. -/
theorem scanParts_eq_lastNonempty (parts : List ContentPart) :
    scanParts parts = lastNonemptyTextPartText parts := by
  unfold scanParts lastNonemptyTextPartText
  rw [foldl_scan_eq_getLast]

/-- One sync cycle never sleeps. -/
theorem countSleeps_runCycle (env : CycleEnv) : countSleeps (runCycle env) = 0 := by
  unfold runCycle
  cases get_models_fn env.modelsResp with
  | error e => rfl
  | ok v =>
      by_cases hw : env.writeRaises
      · simp [hw, countSleeps, List.filter, isSleep]
      · simp [hw, countSleeps, List.filter, isSleep]

/-- One sync cycle writes the configuration document at most once. -/
theorem countWrites_runCycle_le_one (env : CycleEnv) :
    countWrites (runCycle env) ≤ 1 := by
  unfold runCycle
  cases get_models_fn env.modelsResp with
  | error e => simp [countWrites, List.filter, isWrite]
  | ok v =>
      by_cases hw : env.writeRaises
      · simp [hw, countWrites, List.filter, isWrite]
      · simp [hw, countWrites, List.filter, isWrite]

/-- With a positive repeat interval the loop sleeps once per observed cycle:
it never exits early, whatever each cycle's outcome. -/
theorem countSleeps_update_config_task (ri : Int) (hri : 0 < ri) :
    ∀ envs : List CycleEnv,
      countSleeps (update_config_task ri envs) = envs.length := by
  intro envs
  induction envs with
  | nil => rfl
  | cons env rest ih =>
      have hnot : ¬ ri ≤ 0 := by omega
      unfold update_config_task
      simp only [hnot, if_false, if_neg]
      have hsplit : countSleeps
          (runCycle env ++ Effect.sleep ri :: update_config_task ri rest)
          = countSleeps (runCycle env)
            + countSleeps (Effect.sleep ri :: update_config_task ri rest) := by
        unfold countSleeps
        rw [List.filter_append, List.length_append]
      rw [hsplit, countSleeps_runCycle]
      have : countSleeps (Effect.sleep ri :: update_config_task ri rest)
          = 1 + countSleeps (update_config_task ri rest) := by
        unfold countSleeps
        rw [List.filter_cons]
        simp [isSleep, Nat.add_comm]
      rw [this, ih]
      simp [List.length_cons, Nat.add_comm]

/-- C2 counterexample: a full run of `disconnect` on a live process in which
the graceful terminate itself raises (only the wait's timeout error is
caught): the exception escapes to the caller, though the state is cleared. -/
theorem c2_counterexample_terminate_raises :
    OpenCodeSDKClient.disconnect ⟨("wd"), some 1, some 80⟩
        TerminateOutcome.raised WaitOutcome.exitedInTime false
      = ⟨true, ⟨("wd"), none, none⟩, [Effect.terminateProc]⟩ := by
  rfl

/-- C2 (amended): `disconnect` is a no-op without a stored process; otherwise
it terminates, waits, kills on a timed-out wait (and only then), clears the
stored process and port in every path, does not raise when the terminate
completes, is unaffected by an exception from `kill`, but re-raises an
exception thrown by the graceful terminate itself. -/
theorem c2_disconnect_behaviour :
    ∀ (st : OpenCodeSDKClient) (term : TerminateOutcome) (wait : WaitOutcome)
      (k : Bool),
      (st.process = none → st.disconnect term wait k = ⟨false, st, []⟩)
      ∧ (st.process.isSome = true →
          (st.disconnect term wait k).finalState.process = none
          ∧ (st.disconnect term wait k).finalState.port = none
          ∧ Effect.terminateProc ∈ (st.disconnect term wait k).effects
          ∧ (term = TerminateOutcome.ok →
              (st.disconnect term wait k).raised = false)
          ∧ (term = TerminateOutcome.ok → wait = WaitOutcome.timedOut →
              Effect.killProc ∈ (st.disconnect term wait k).effects)
          ∧ (term = TerminateOutcome.ok → wait = WaitOutcome.exitedInTime →
              ¬ Effect.killProc ∈ (st.disconnect term wait k).effects)
          ∧ (term = TerminateOutcome.raised →
              (st.disconnect term wait k).raised = true))
      ∧ st.disconnect term wait true = st.disconnect term wait false := by
  intro st term wait k
  obtain ⟨wd, proc, port⟩ := st
  cases proc with
  | none =>
      refine ⟨fun _ => rfl, ?_, rfl⟩
      intro h
      simp [Option.isSome] at h
  | some pid =>
      refine ⟨?_, ?_, ?_⟩
      · intro h
        simp at h
      · intro _
        cases term with
        | raised =>
            refine ⟨rfl, rfl, ?_, ?_, ?_, ?_, ?_⟩ <;>
              simp [OpenCodeSDKClient.disconnect]
        | ok =>
            cases wait with
            | exitedInTime =>
                refine ⟨rfl, rfl, ?_, ?_, ?_, ?_, ?_⟩ <;>
                  simp [OpenCodeSDKClient.disconnect]
            | timedOut =>
                refine ⟨rfl, rfl, ?_, ?_, ?_, ?_, ?_⟩ <;>
                  simp [OpenCodeSDKClient.disconnect]
      · cases term with
        | raised => rfl
        | ok => cases wait <;> rfl

/-- C2 witness: disconnecting a live supervisor whose process exits within
the graceful window clears the stored state. -/
theorem c2_disconnect_behaviour_witness :
    (OpenCodeSDKClient.disconnect ⟨("wd"), some 1, some 80⟩
        TerminateOutcome.ok WaitOutcome.exitedInTime false).finalState.process
      = none := by
  have h := c2_disconnect_behaviour ⟨("wd"), some 1, some 80⟩
    TerminateOutcome.ok WaitOutcome.exitedInTime false
  exact (h.2.1 rfl).1

/-- C3: whenever the readiness probe does not succeed — it returns a falsy
value or raises — `connect` raises to the caller, the spawned process is
killed best-effort (an exception from `kill` does not change the outcome),
and the stored process and port are both cleared to `None`. -/
theorem c3_connect_failure_cleanup :
    ∀ (wd : String) (pid : Int) (port : Nat) (probe : ProbeOutcome) (k : Bool),
      probe ≠ ProbeOutcome.ready →
      (connect_readiness_phase wd pid port probe k).raised = true
      ∧ (connect_readiness_phase wd pid port probe k).finalState.process = none
      ∧ (connect_readiness_phase wd pid port probe k).finalState.port = none
      ∧ Effect.killProc ∈ (connect_readiness_phase wd pid port probe k).effects
      ∧ connect_readiness_phase wd pid port probe true
          = connect_readiness_phase wd pid port probe false := by
  intro wd pid port probe k hne
  cases probe with
  | ready => exact absurd rfl hne
  | notReady =>
      refine ⟨rfl, rfl, rfl, ?_, rfl⟩
      simp [connect_readiness_phase]
  | raised =>
      refine ⟨rfl, rfl, rfl, ?_, rfl⟩
      simp [connect_readiness_phase]

/-- C3 witness: a readiness timeout on a concrete connect attempt raises and
clears the supervisor state. -/
theorem c3_connect_failure_cleanup_witness :
    (connect_readiness_phase ("wd") 1 80 ProbeOutcome.notReady false).raised
        = true
      ∧ (connect_readiness_phase ("wd") 1 80
          ProbeOutcome.notReady false).finalState.process = none := by
  have h := c3_connect_failure_cleanup ("wd") 1 80 ProbeOutcome.notReady false
    (by decide)
  exact ⟨h.1, h.2.1⟩

/-- C4 counterexample: with content parts text:"final" then text:"" the last
text-typed part's text is the empty string, yet `query` returns "final" — the
code skips text parts whose text is empty, so the claim's "last text-typed
part" reading fails. -/
theorem c4_counterexample_trailing_empty_text_part :
    (OpenCodeSDKClient.query ⟨("wd"), some 1, some 80⟩ (some ("s")) none
        ⟨200, [⟨some ("text"), some ("final")⟩, ⟨some ("text"), some ("")⟩]⟩).fst
      = Except.ok ("final")
    ∧ lastTextTypedPartText
        [⟨some ("text"), some ("final")⟩, ⟨some ("text"), some ("")⟩]
      = some ("")
    ∧ (("final") : String) ≠ ("") := by
  refine ⟨?_, ?_, ?_⟩
  · rfl
  · rfl
  · decide

/-- C4 (amended): on a 200 response the reply is the text of the last
text-typed part whose text is non-empty (empty or missing text does not
count), marker-stripped and trimmed; in particular parts
text:"partial", text:"final" yield "final". -/
theorem c4_last_nonempty_text_part_wins :
    (∀ (st : OpenCodeSDKClient) (pid : Int) (sid : String)
        (parts : List ContentPart),
      st.process = some pid →
      (st.query (some sid) none ⟨200, parts⟩).fst
        = Except.ok (pyStrip (strip_markers (pyStrip (lastNonemptyTextPartText parts))
            [(("think"), false)])))
    ∧ (OpenCodeSDKClient.query ⟨("wd"), some 1, some 80⟩ (some ("s")) none
          ⟨200, [⟨some ("text"), some ("partial")⟩,
            ⟨some ("text"), some ("final")⟩]⟩).fst
        = Except.ok ("final") := by
  constructor
  · intro st pid sid parts hproc
    unfold OpenCodeSDKClient.query
    rw [hproc]
    unfold call_opencode_api_query
    simp only [if_pos rfl]
    rw [scanParts_eq_lastNonempty]
    by_cases h : lastNonemptyTextPartText parts = ""
    · simp [h]
    · simp [h]
  · rfl

/-- C4 witness: a concrete 200 response with an incremental and a final text
part, run through the amended statement. -/
theorem c4_last_nonempty_text_part_wins_witness :
    (OpenCodeSDKClient.query ⟨("wd"), some 2, some 81⟩ (some ("sid")) none
        ⟨200, [⟨some ("text"), some ("hello")⟩]⟩).fst
      = Except.ok (pyStrip (strip_markers (pyStrip (lastNonemptyTextPartText
          [⟨some ("text"), some ("hello")⟩])) [(("think"), false)])) := by
  exact c4_last_nonempty_text_part_wins.1 ⟨("wd"), some 2, some 81⟩ 2 ("sid")
    [⟨some ("text"), some ("hello")⟩] rfl

/-- C5 counterexample: a 200 response whose JSON body has no `data` key makes
`get_models_fn` raise a `KeyError` instead of returning the empty list — only
the GET itself is guarded by the try/except. -/
theorem c5_counterexample_malformed_200 :
    get_models_fn (some ⟨200, Json.obj []⟩) = Except.error ("KeyError: data")
    ∧ get_models_fn (some ⟨200, Json.obj []⟩) ≠ Except.ok [] := by
  constructor
  · rfl
  · intro h
    rw [show get_models_fn (some ⟨200, Json.obj []⟩)
        = Except.error ("KeyError: data") from rfl] at h
    exact Except.noConfusion h

/-- C5 (amended): `get_models_fn` returns the empty list on a transport
failure or a non-200 response; a well-formed 200 body is reshaped into
id/name pairs; a malformed 200 body (no `data` list) raises. -/
theorem c5_get_models_behaviour :
    (get_models_fn none = Except.ok [])
    ∧ (∀ (s : Nat) (b : Json), s ≠ 200 → get_models_fn (some ⟨s, b⟩) = Except.ok [])
    ∧ (get_models_fn (some ⟨200, Json.obj [(("data"),
          Json.arr [Json.obj [(("id"), Json.str ("m1")),
            (("name"), Json.str ("Model One"))]])]⟩)
        = Except.ok [ModelDescriptor.mk (Json.str ("m1")) (Json.str ("Model One"))])
    ∧ (∃ e, get_models_fn (some ⟨200, Json.obj []⟩) = Except.error e) := by
  refine ⟨rfl, ?_, rfl, ⟨("KeyError: data"), rfl⟩⟩
  intro s b hs
  unfold get_models_fn
  simp [hs]

/-- C5 witness: a 503 from the gateway yields the empty model list. -/
theorem c5_get_models_behaviour_witness :
    get_models_fn (some ⟨503, Json.null⟩) = Except.ok [] := by
  exact c5_get_models_behaviour.2.1 503 Json.null (by decide)

/-- C6: with a non-positive repeat interval `update_config_task` performs one
cycle (hence at most one config write) and stops; with a positive interval it
sleeps the interval after each observed cycle and continues through the whole
observation window — one sleep per cycle — and a cycle whose fetch raises is
logged and absorbed, the loop going on. -/
theorem c6_update_config_task_loop :
    ∀ (ri : Int) (env : CycleEnv) (rest : List CycleEnv),
      (ri ≤ 0 →
        update_config_task ri (env :: rest)
            = runCycle env ++ [Effect.log LogLevel.info]
        ∧ countWrites (update_config_task ri (env :: rest)) ≤ 1)
      ∧ (0 < ri →
        update_config_task ri (env :: rest)
            = runCycle env ++ Effect.sleep ri :: update_config_task ri rest
        ∧ countSleeps (update_config_task ri (env :: rest))
            = (env :: rest).length)
      ∧ (∀ e, get_models_fn env.modelsResp = Except.error e →
          runCycle env = [Effect.log LogLevel.error]) := by
  intro ri env rest
  refine ⟨?_, ?_, ?_⟩
  · intro hle
    constructor
    · unfold update_config_task
      simp [hle]
    · unfold update_config_task
      simp only [hle, if_pos]
      have hsplit : countWrites (runCycle env ++ [Effect.log LogLevel.info])
          = countWrites (runCycle env)
            + countWrites [Effect.log LogLevel.info] := by
        unfold countWrites
        rw [List.filter_append, List.length_append]
      rw [hsplit]
      have h2 : countWrites [Effect.log LogLevel.info] = 0 := by rfl
      rw [h2]
      simpa using countWrites_runCycle_le_one env
  · intro hpos
    have hnot : ¬ ri ≤ 0 := by omega
    constructor
    · have heq : update_config_task ri (env :: rest)
          = if ri ≤ 0 then runCycle env ++ [Effect.log LogLevel.info]
            else runCycle env ++ Effect.sleep ri :: update_config_task ri rest := rfl
      rw [heq]
      simp [hnot]
    · exact countSleeps_update_config_task ri hpos (env :: rest)
  · intro e he
    unfold runCycle
    rw [he]

/-- C6 witness: one non-repeating run against a healthy environment writes
the configuration document exactly once and stops. -/
theorem c6_update_config_task_loop_witness :
    update_config_task 0 [⟨none, false⟩]
        = [Effect.writeConfig, Effect.log LogLevel.info]
      ∧ countWrites (update_config_task 0 [⟨none, false⟩]) ≤ 1 := by
  have h := (c6_update_config_task_loop 0 ⟨none, false⟩ []).1 (by decide)
  exact ⟨by rw [h.1]; rfl, h.2⟩

/-- C7: `compact` returns true exactly on HTTP 200; a non-200 response emits
an external alert and yields false; a transport exception is logged and
yields false; the embedding is total — no exception reaches the caller. -/
theorem c7_compact_true_iff_200 :
    ∀ (sid : String) (resp : Option Nat),
      ((call_opencode_api_compact sid resp).fst = true ↔ resp = some 200)
      ∧ (∀ s, resp = some s → s ≠ 200 →
          (call_opencode_api_compact sid resp).fst = false
          ∧ Effect.alert ["opencode", "compact", "error"]
              ∈ (call_opencode_api_compact sid resp).snd)
      ∧ (resp = none →
          (call_opencode_api_compact sid resp).fst = false
          ∧ Effect.log LogLevel.error ∈ (call_opencode_api_compact sid resp).snd) := by
  intro sid resp
  cases resp with
  | none =>
      refine ⟨?_, ?_, ?_⟩
      · simp [call_opencode_api_compact]
      · intro s hs
        exact absurd hs (by simp)
      · intro _
        simp [call_opencode_api_compact]
  | some status =>
      refine ⟨?_, ?_, ?_⟩
      · by_cases h : status = 200
        · subst h
          simp [call_opencode_api_compact]
        · simp [call_opencode_api_compact, h]
      · intro s hs hne
        have : s = status := by
          injection hs.symm
        subst this
        simp [call_opencode_api_compact, hne]
      · intro h
        exact absurd h (by simp)

/-- C7 witness: a 500 from the summarize endpoint yields false with an alert,
and a 200 yields true. -/
theorem c7_compact_true_iff_200_witness :
    (call_opencode_api_compact ("s1") (some 500)).fst = false
      ∧ (call_opencode_api_compact ("s1") (some 200)).fst = true := by
  refine ⟨((c7_compact_true_iff_200 ("s1") (some 500)).2.1 500 rfl (by decide)).1, ?_⟩
  exact (c7_compact_true_iff_200 ("s1") (some 200)).1.mpr rfl

/-- C8: a non-200 response from the session message endpoint makes `query`
emit an external alert and return the empty string, without raising. -/
theorem c8_query_non200_empty_reply :
    ∀ (st : OpenCodeSDKClient) (pid : Int) (sid : String) (status : Nat)
      (parts : List ContentPart) (createResp : Option (Nat × Option String)),
      st.process = some pid → status ≠ 200 →
      (st.query (some sid) createResp ⟨status, parts⟩).fst = Except.ok ("")
      ∧ Effect.alert ["opencode", "query", "error"]
          ∈ (st.query (some sid) createResp ⟨status, parts⟩).snd := by
  intro st pid sid status parts createResp hproc hstatus
  unfold OpenCodeSDKClient.query
  rw [hproc]
  unfold call_opencode_api_query
  simp only [hstatus, if_neg, if_false]
  constructor
  · rfl
  · simp

/-- C8 witness: a concrete 404 from the message endpoint yields the empty
reply. -/
theorem c8_query_non200_empty_reply_witness :
    (OpenCodeSDKClient.query ⟨("wd"), some 1, some 80⟩ (some ("s")) none
        ⟨404, []⟩).fst = Except.ok ("") := by
  exact (c8_query_non200_empty_reply ⟨("wd"), some 1, some 80⟩ 1 ("s") 404 []
    none rfl (by decide)).1

/-- C9: with no stored process handle, `query`, `compact` and
`create_session` all fail immediately with the not-connected assertion and
perform no effect at all — in particular no network request. -/
theorem c9_ops_fail_fast_without_process :
    ∀ (st : OpenCodeSDKClient) (sid title : String) (qresp : QueryResponse)
      (cresp : Option Nat) (sresp : Option (Nat × Option String))
      (session_id : Option String) (createResp : Option (Nat × Option String)),
      st.process = none →
      st.query session_id createResp qresp
          = (Except.error ("Not connected to OpenCode"), [])
      ∧ st.compact sid cresp = (Except.error ("Not connected to OpenCode"), [])
      ∧ st.create_session title sresp
          = (Except.error ("Not connected to OpenCode"), []) := by
  intro st sid title qresp cresp sresp session_id createResp hproc
  refine ⟨?_, ?_, ?_⟩
  · unfold OpenCodeSDKClient.query
    rw [hproc]
  · unfold OpenCodeSDKClient.compact
    rw [hproc]
  · unfold OpenCodeSDKClient.create_session
    rw [hproc]

/-- C9 witness: a disconnected supervisor rejects a compact call without
sending anything. -/
theorem c9_ops_fail_fast_without_process_witness :
    OpenCodeSDKClient.compact ⟨("wd"), none, none⟩ ("sid") (some 200)
      = (Except.error ("Not connected to OpenCode"), []) := by
  exact (c9_ops_fail_fast_without_process ⟨("wd"), none, none⟩ ("sid") ("t")
    ⟨200, []⟩ (some 200) none none none rfl).2.1
